import Mathlib

/-!
Verification development for the RPN-Calculator core
(src/RPNCalculator.c, src/stackops.c, inc/stackops.h, inc/RPNCalculator.h).

The embedding follows the compiled C semantics.  The source compares
`int` values against `unsigned int` constants in many places
(`FUNCTION_SUCCESS` is `(unsigned int)0u`, `MAX_STACK_SIZE - SIZE_OFFSET`
is `999u`, and the stack `top` fields are `int`, `-1` when empty).  Under
C's usual arithmetic conversions the signed operand is converted to
`unsigned int` in such comparisons, so for example `top >= 999u` is true
when `top == -1`, and `x >= 0u` is always true.  The function `uint`
below is that conversion; every comparison that mixes `int` and
`unsigned int` in the source is rendered through it.

Numeric values (C `double`) are modelled as rationals; every numeric
computation reached by the claims is exact in double precision
(small integers, a subtraction, integer powers), so the rational model
agrees with the C one on all claim-relevant inputs.  Error returns
(`-ENOMEM` for NULL inputs aside, which a Lean value cannot be) are all
`-EINVAL`; fallible functions return `Except Unit` with `.error ()`
standing for the single error classification the C caller can observe.
-/

/-- C's usual-arithmetic-conversion of an `int` value to `unsigned int`:
reduction modulo 2^32, landing in `Nat`.  `uint (-1) = 4294967295`. -/
def uint (i : Int) : Nat := (i % (2 ^ 32 : Int)).toNat

/-- Linux errno value used throughout the source as the error code. -/
def EINVAL : Int := 22

/-- The error code as a double, as produced by `ret = -(EINVAL)` on a
`double` return path. -/
def EINVALq : ℚ := ((EINVAL : Int) : ℚ)

/-- MAX_STACK_SIZE from stackops.h. -/
def MAX_STACK_SIZE : Nat := 1000

/-- MAX_TOKEN_LENGTH from stackops.h (64, including the terminator). -/
def MAX_TOKEN_LENGTH : Nat := 64

/-- MAX_NUM_TOKENS from RPNCalculator.h. -/
def MAX_NUM_TOKENS : Nat := 1000

/-- Stack state constant STACK_FULL from stackops.h. -/
def STACK_FULL : Nat := 0

/-- Stack state constant STACK_EMPTY from stackops.h. -/
def STACK_EMPTY : Nat := 1

/-- Operator index OP_ADD of enum operatorIndex. -/
def OP_ADD : Int := 0

/-- Operator index OP_SUB of enum operatorIndex. -/
def OP_SUB : Int := 1

/-- Operator index OP_MUL of enum operatorIndex. -/
def OP_MUL : Int := 2

/-- Operator index OP_DIV of enum operatorIndex. -/
def OP_DIV : Int := 3

/-- Operator index OP_POW of enum operatorIndex. -/
def OP_POW : Int := 4

/-- Operator index OP_FACT of enum operatorIndex. -/
def OP_FACT : Int := 5

/-- Precedence level PRECEDENCE_1 (highest) of enum operationPrecedences. -/
def PRECEDENCE_1 : Int := 0

/-- Precedence level PRECEDENCE_2 of enum operationPrecedences. -/
def PRECEDENCE_2 : Int := 1

/-- Precedence level PRECEDENCE_3 of enum operationPrecedences. -/
def PRECEDENCE_3 : Int := 2

/-- Precedence level PRECEDENCE_4 of enum operationPrecedences. -/
def PRECEDENCE_4 : Int := 3

/-- Precedence level PRECEDENCE_5 (lowest) of enum operationPrecedences. -/
def PRECEDENCE_5 : Int := 4

/-- LEFT_ASSOCIATIVE of enum rightLeftAssociative. -/
def LEFT_ASSOCIATIVE : Int := 0

/-- RIGHT_ASSOCIATIVE of enum rightLeftAssociative. -/
def RIGHT_ASSOCIATIVE : Int := 1

/-- The operator symbol table `operators_str`, ordered by operator index. -/
def operators_str : List String := ["+", "-", "*", "/", "^", "!"]

/-- The function name table `functions_str`, ordered by function index. -/
def functions_str : List String :=
  ["sqrt", "log", "ln", "sin", "cos", "tan", "cosh", "sinh", "tanh",
   "asin", "acos", "atan", "arcsin", "arccos", "arctan"]

/-- The linear-scan loop shared by RPNCalculator_whichOperator and
RPNCalculator_whichFunction: first index whose entry equals the token,
else -EINVAL. -/
def lookupIndexFrom : List String → String → Nat → Int
  | [], _, _ => -EINVAL
  | s :: rest, token, i => if token = s then (i : Int) else lookupIndexFrom rest token (i + 1)

/-- RPNCalculator_whichOperator: operator index of the token, or -EINVAL. -/
def RPNCalculator_whichOperator (token : String) : Int :=
  lookupIndexFrom operators_str token 0

/-- RPNCalculator_whichFunction: function index of the token, or -EINVAL. -/
def RPNCalculator_whichFunction (token : String) : Int :=
  lookupIndexFrom functions_str token 0

/-- RPNCalculator_checkPrecedence.  The source compares the two signed
index results against `FUNCTION_SUCCESS = (unsigned int)0u`; each
comparison therefore happens in the unsigned domain (rendered via
`uint`), where `< uint 0` is unsatisfiable, so no branch ever fires and
the initial `ret = FUNCTION_SUCCESS` (0) survives to the return.  The
three sequential reassignments of `ret` in the source are the three
`let` layers here. -/
def RPNCalculator_checkPrecedence (token : String) : Int :=
  let function_index := RPNCalculator_whichFunction token
  let operator_index := RPNCalculator_whichOperator token
  let ret1 : Int := 0
  let ret2 : Int :=
    if uint function_index ≥ uint 0 ∧ uint operator_index < uint 0 then
      PRECEDENCE_1
    else ret1
  let ret3 : Int :=
    if uint function_index < uint 0 ∧ uint operator_index ≥ uint 0 then
      (if operator_index = OP_FACT then PRECEDENCE_2
       else if operator_index = OP_POW then PRECEDENCE_3
       else if operator_index = OP_MUL then PRECEDENCE_4
       else if operator_index = OP_DIV then PRECEDENCE_4
       else if operator_index = OP_ADD then PRECEDENCE_5
       else if operator_index = OP_SUB then PRECEDENCE_5
       else -EINVAL)
    else ret2
  if uint function_index < uint 0 ∧ uint operator_index < uint 0 then -EINVAL else ret3

/-- RPNCalculator_isRightAssociative: RIGHT_ASSOCIATIVE for the tokens
equal to `operators_str[OP_POW]` ("^") or `operators_str[OP_FACT]` ("!"),
LEFT_ASSOCIATIVE otherwise. -/
def RPNCalculator_isRightAssociative (token : String) : Int :=
  if token = "^" ∨ token = "!" then RIGHT_ASSOCIATIVE else LEFT_ASSOCIATIVE

theorem uint_zero_le (i : Int) : uint 0 ≤ uint i := Nat.zero_le _

theorem uint_not_lt_zero (i : Int) : ¬ uint i < uint 0 := by
  intro h
  exact Nat.not_lt_zero _ h

/-- Every non-NULL token gets precedence 0: the guards of all three
assignments in the source require an unsigned value to be `< 0u`. -/
theorem uint_lt_zero_false (i : Int) : (uint i < uint 0) = False :=
  eq_false (uint_not_lt_zero i)

theorem checkPrecedence_eq_zero (t : String) : RPNCalculator_checkPrecedence t = 0 := by
  simp only [RPNCalculator_checkPrecedence, uint_lt_zero_false, and_false, false_and,
    if_false]

/-- ASCII `isdigit` from ctype.h: codes 48..57. -/
def isdigitC (c : Char) : Bool := decide (48 ≤ c.toNat ∧ c.toNat ≤ 57)

/-- ASCII `isalpha` from ctype.h: codes 65..90 and 97..122. -/
def isalphaC (c : Char) : Bool :=
  decide ((65 ≤ c.toNat ∧ c.toNat ≤ 90) ∨ (97 ≤ c.toNat ∧ c.toNat ≤ 122))

/-- ASCII `isspace` from ctype.h: space (32) and codes 9..13. -/
def isspaceC (c : Char) : Bool := decide (c.toNat = 32 ∨ (9 ≤ c.toNat ∧ c.toNat ≤ 13))

/-- The `strchr("+-*/^!()[]\x7b\x7d", c)` test of the tokenizer, by ASCII
code: + - * / ^ ! ( ) [ ] and the two curly braces (123, 125). -/
def opBracketChar (c : Char) : Bool :=
  decide (c.toNat = 43 ∨ c.toNat = 45 ∨ c.toNat = 42 ∨ c.toNat = 47 ∨ c.toNat = 94 ∨
          c.toNat = 33 ∨ c.toNat = 40 ∨ c.toNat = 41 ∨ c.toNat = 91 ∨ c.toNat = 93 ∨
          c.toNat = 123 ∨ c.toNat = 125)

/-- Character class of the tokenizer's inner NUMBER scan:
`isdigit(c) || c == '.'`. -/
def numberChar (c : Char) : Bool := isdigitC c || c == '.'

/-- Character class of the tokenizer's inner IDENTIFIER scan. -/
def alphaChar (c : Char) : Bool := isalphaC c

/-- One inner scanning `while` of RPNCalculator_tokenize: starting from
`char_index = ci`, consume characters of the class while
`char_index < MAX_TOKEN_LENGTH - 1`.  Returns (consumed characters,
remaining input, final char_index). -/
def scanToken (valid : Char → Bool) : List Char → Nat → List Char × List Char × Nat
  | [], ci => ([], [], ci)
  | c :: rest, ci =>
    if valid c ∧ ci < MAX_TOKEN_LENGTH - 1 then
      let p := scanToken valid rest (ci + 1)
      (c :: p.1, p.2.1, p.2.2)
    else ([], c :: rest, ci)

/-- The outer `while` of RPNCalculator_tokenize.  `char_index` is the
stale scan index carried across iterations exactly as in the source: the
NUMBER branch's entry guard tests the *previous* value of `char_index`,
and only the NUMBER and IDENTIFIER branches reset it (to the length of
the token they produce).  Each iteration consumes at least one input
character, so a `fuel` of the input length (used by
RPNCalculator_tokenize) never runs out; `fuel` only makes the recursion
structural.  The scans are entered with `char_index = 1` and the first
character already consumed, which is exactly the guaranteed first
iteration of the source's inner loops.  Tokens are accumulated in
reverse and reversed on return. -/
def tokenizeGo : Nat → List Char → Nat → Nat → List String → Except Unit (List String)
  | _, [], _, _, acc => .ok acc.reverse
  | 0, _ :: _, _, _, _ => .error ()
  | fuel + 1, c :: rest, char_index, total_tokens, acc =>
    if isspaceC c then tokenizeGo fuel rest char_index total_tokens acc
    else if (isdigitC c ∨ c = '.') ∧ char_index < MAX_TOKEN_LENGTH - 1 then
      if MAX_NUM_TOKENS ≤ total_tokens then .error ()
      else
        let p := scanToken numberChar rest 1
        tokenizeGo fuel p.2.1 p.2.2 (total_tokens + 1) (String.mk (c :: p.1) :: acc)
    else if isalphaC c then
      if MAX_NUM_TOKENS ≤ total_tokens then .error ()
      else
        let p := scanToken alphaChar rest 1
        tokenizeGo fuel p.2.1 p.2.2 (total_tokens + 1) (String.mk (c :: p.1) :: acc)
    else if opBracketChar c then
      if MAX_NUM_TOKENS ≤ total_tokens then .error ()
      else tokenizeGo fuel rest char_index (total_tokens + 1) (String.mk [c] :: acc)
    else .error ()

/-- RPNCalculator_tokenize: scan the expression into tokens, or fail on
an unrecognized character or on exceeding MAX_NUM_TOKENS. -/
def RPNCalculator_tokenize (expression : String) : Except Unit (List String) :=
  tokenizeGo expression.data.length expression.data 0 0 []

/-- The `top` field of a stack holding `len` elements: `len - 1`, the
empty-stack sentinel EMPTY_TOP = -1 at `len = 0`. -/
def topIndex (len : Nat) : Int := (len : Int) - 1

/-- Stack_pushOp from stackops.c.  The guard
`stack->top >= (MAX_STACK_SIZE - SIZE_OFFSET)` compares the signed `top`
against unsigned `999u`, so it also fires on the empty stack
(`uint (-1) = 4294967295`): pushing onto an empty operator stack fails
with -EINVAL and leaves the stack unchanged.  Returns (status, stack). -/
def Stack_pushOp (stack : List String) (value : String) : Int × List String :=
  if uint (topIndex stack.length) ≥ uint ((MAX_STACK_SIZE : Int) - 1) then (-EINVAL, stack)
  else (0, value :: stack)

/-- Stack_popOp: top element (none when empty) and the remaining stack. -/
def Stack_popOp (stack : List String) : Option String × List String :=
  match stack with
  | [] => (none, [])
  | v :: rest => (some v, rest)

/-- Stack_peekOp: top element without removal, none when empty. -/
def Stack_peekOp (stack : List String) : Option String :=
  match stack with
  | [] => none
  | v :: _ => some v

/-- Stack_isEmpty: STACK_EMPTY when `top == EMPTY_TOP`, else STACK_FULL. -/
def Stack_isEmpty (stack : List String) : Nat :=
  if topIndex stack.length = -1 then STACK_EMPTY else STACK_FULL

/-- Stack_pushVal from stackops.c, with the same unsigned-comparison
guard as Stack_pushOp: pushing onto an empty value stack fails with
-EINVAL.  Returns (status, stack). -/
def Stack_pushVal (stack_val : List ℚ) (value : ℚ) : Int × List ℚ :=
  if uint (topIndex stack_val.length) ≥ uint ((MAX_STACK_SIZE : Int) - 1) then
    (-EINVAL, stack_val)
  else (0, value :: stack_val)

/-- Stack_popVal: the popped value, or the `-EINVAL` double on an empty
stack (the stack is then left unchanged). -/
def Stack_popVal (stack_val : List ℚ) : ℚ × List ℚ :=
  match stack_val with
  | [] => (-EINVALq, [])
  | v :: rest => (v, rest)

/-- Stack_isEmptyVal: STACK_EMPTY when `top == EMPTY_TOP`, else
STACK_FULL. -/
def Stack_isEmptyVal (stack_val : List ℚ) : Nat :=
  if topIndex stack_val.length = -1 then STACK_EMPTY else STACK_FULL

/-- The number-token test shared by the converter and the evaluator:
`isdigit(token[0]) || (token[0] == '.' && isdigit(token[1]))`
(`token[1]` is the terminator for a one-character token, so a lone "."
is not a number token). -/
def isNumberTok (t : String) : Bool :=
  match t.data with
  | [] => false
  | c :: rest =>
    isdigitC c ||
      (c == '.' && (match rest with
        | [] => false
        | d :: _ => isdigitC d))

/-- Open-bracket test of the converter: the token equals "(", "[" or the
open curly brace (written by its escape to keep the brace out of the
code). -/
def isOpenBracket (t : String) : Bool := t == "(" || t == "[" || t == "\x7b"

/-- Close-bracket test of the converter: ")", "]" or the close curly
brace. -/
def isCloseBracket (t : String) : Bool := t == ")" || t == "]" || t == "\x7d"

/-- The close-bracket `while` of RPNCalculator_infixToPostfix: peek and
pop operators to the output until an open bracket is on top.  Returns
(the open bracket if one was found, the stack after also popping that
open bracket, the extended output); `none` in the first component is the
`top_token == NULL` error case of the source. -/
def popToOpenBracket : List String → List String → Option String × List String × List String
  | [], output => (none, [], output)
  | top :: st, output =>
    if isOpenBracket top then (some top, st, output)
    else popToOpenBracket st (output ++ [top])

/-- The operator-token `while` of RPNCalculator_infixToPostfix: pop to
the output while the top is a function, or an operator of lower
precedence value, or of equal precedence when the incoming token is left
associative (`!isRightAssociative(token)` is `= 0` on the `int` result).
Returns (remaining stack, extended output). -/
def popHigherOps (token : String) : List String → List String → List String × List String
  | [], output => ([], output)
  | top :: st, output =>
    if uint (RPNCalculator_whichFunction top) ≥ uint 0
        ∨ (uint (RPNCalculator_whichOperator top) ≥ uint 0
           ∧ (RPNCalculator_checkPrecedence top < RPNCalculator_checkPrecedence token
              ∨ (RPNCalculator_checkPrecedence top = RPNCalculator_checkPrecedence token
                 ∧ RPNCalculator_isRightAssociative token = 0))) then
      popHigherOps token st (output ++ [top])
    else (top :: st, output)

/-- The final `while` of RPNCalculator_infixToPostfix: pop all remaining
stack entries to the output, failing if any of them is an open
bracket. -/
def drainOps : List String → List String → Except Unit (List String)
  | [], output => .ok output
  | top :: st, output =>
    if isOpenBracket top then .error () else drainOps st (output ++ [top])

/-- The token loop of RPNCalculator_infixToPostfix (the source function
converting infix tokens to postfix; renamed here).  Branch order as in
the source: number, function, open bracket, close bracket, operator,
error.  The function guard `whichFunction(token) >= FUNCTION_SUCCESS`
is an int-vs-unsigned comparison and therefore always true, so every
token that is not a number token is pushed by the function branch and
the remaining branches are unreachable; they are still transcribed.
Every `Stack_pushOp` status is discarded, exactly as in the source. -/
def shuntingYardGo : List String → List String → List String → Except Unit (List String)
  | [], op_stack, output => drainOps op_stack output
  | token :: rest, op_stack, output =>
    if isNumberTok token then shuntingYardGo rest op_stack (output ++ [token])
    else if uint (RPNCalculator_whichFunction token) ≥ uint 0 then
      shuntingYardGo rest (Stack_pushOp op_stack token).2 output
    else if isOpenBracket token then
      shuntingYardGo rest (Stack_pushOp op_stack token).2 output
    else if isCloseBracket token then
      match popToOpenBracket op_stack output with
      | (none, _, _) => .error ()
      | (some _, st1, out1) =>
        match st1 with
        | top :: st2 =>
          if uint (RPNCalculator_whichFunction top) ≥ uint 0 then
            shuntingYardGo rest st2 (out1 ++ [top])
          else shuntingYardGo rest st1 out1
        | [] => shuntingYardGo rest [] out1
    else if uint (RPNCalculator_whichOperator token) ≥ uint 0 then
      let p := popHigherOps token op_stack output
      shuntingYardGo rest (Stack_pushOp p.1 token).2 p.2
    else .error ()

/-- RPNCalculator_infixToPostfix (renamed): Shunting-Yard conversion of
the token sequence, starting from an empty operator stack and an empty
output. -/
def RPNCalculator_shuntingYard (tokens : List String) : Except Unit (List String) :=
  shuntingYardGo tokens [] []

/-- Leading-digit split used by the `atof` model. -/
def takeDigits : List Char → List Char × List Char
  | [] => ([], [])
  | c :: rest =>
    if isdigitC c then
      let p := takeDigits rest
      (c :: p.1, p.2)
    else ([], c :: rest)

/-- Decimal value of a digit run. -/
def natOfDigits (ds : List Char) : Nat := ds.foldl (fun a c => a * 10 + (c.toNat - 48)) 0

/-- Model of the C library `atof` on the tokens this program produces
(digits and dots, no signs or exponents): leading digits, then an
optional fractional digit run after a first '.', everything after a
second '.' ignored — `atof("1.2.3")` is 1.2.  Exact where the scanned
decimal is exactly representable; all claim-relevant tokens are small
integers. -/
def atof (t : String) : ℚ :=
  let p := takeDigits t.data
  let ipart : ℚ := (natOfDigits p.1 : ℚ)
  match p.2 with
  | [] => ipart
  | c :: rest =>
    if c = '.' then
      let q := takeDigits rest
      ipart + (natOfDigits q.1 : ℚ) / ((10 : ℚ) ^ q.1.length)
    else ipart

/-- RPNCalculator_factorialCalculate: 1 at 0 and 1, else
`n * factorial (n - 1)`. -/
def RPNCalculator_factorialCalculate : Nat → ℚ
  | 0 => 1
  | 1 => 1
  | n + 2 => ((n + 2 : Nat) : ℚ) * RPNCalculator_factorialCalculate (n + 1)

/-- Model of the C library `pow` for the rational embedding: integer
exponents are exact (`zpow`); a non-integer exponent, whose real value
is irrational in general, is mapped to 0 — no claim exercises one, and
the only evaluator path reading the result compares it against the
-EINVAL sentinel, for which any non-sentinel stand-in is equivalent. -/
def powQ (a b : ℚ) : ℚ := if b.den = 1 then a ^ b.num else 0

/-- RPNCalculator_applyOperation: the conditional chain of the source.
Division tests `num_b != 0u` (double against unsigned zero, i.e. 0.0);
a zero divisor falls through past the OP_POW test to `-(EINVAL)`. -/
def RPNCalculator_applyOperation (operation : String) (num_a num_b : ℚ) : ℚ :=
  let operation_index := RPNCalculator_whichOperator operation
  if operation_index = OP_ADD then num_a + num_b
  else if operation_index = OP_SUB then num_a - num_b
  else if operation_index = OP_MUL then num_a * num_b
  else if operation_index = OP_DIV ∧ num_b ≠ 0 then num_a / num_b
  else if operation_index = OP_POW then powQ num_a num_b
  else -EINVALq

/-- The C cast `(int)(x)` on a double, truncation toward zero; in this
program it is only evaluated on values that are checked non-negative
first (or its value is irrelevant because the `a < 0` disjunct already
holds), where it equals `num / den`. -/
def truncInt (q : ℚ) : Int := q.num / (q.den : Int)

/-- The token loop of RPNCalculator_evaluatePostfix (the source's
postfix evaluator; renamed).  Branch order as in the source: number
push, operator (factorial or binary), then — unreachably, because the
operator guard `whichOperator(token) >= FUNCTION_SUCCESS` is an
int-vs-unsigned comparison and always true — the function-application
branch and the unmapped-token error, which both collapse into the final
`.error ()` here (the function branch would call the transcendental
appliers, which have no rational embedding; it is dead code).  The
binary branch's operand guard `val_stack.top < 1u` is again unsigned,
so it does not fire on an empty stack (`top = -1`): the source then
pops two -EINVAL sentinels and only fails when the result push is
refused. -/
def evalLoop : List String → List ℚ → Except Unit (List ℚ)
  | [], val_stack => .ok val_stack
  | token :: rest, val_stack =>
    if isNumberTok token then
      let p := Stack_pushVal val_stack (atof token)
      if p.1 ≠ 0 then .error () else evalLoop rest p.2
    else if uint (RPNCalculator_whichOperator token) ≥ uint 0 then
      if token = "!" then
        if Stack_isEmptyVal val_stack = STACK_EMPTY then .error ()
        else
          let q := Stack_popVal val_stack
          let operand_a := q.1
          if operand_a < 0 ∨ operand_a - ((truncInt operand_a : Int) : ℚ) ≠ 0 then .error ()
          else
            let result_value := RPNCalculator_factorialCalculate (truncInt operand_a).toNat
            let p := Stack_pushVal q.2 result_value
            if p.1 ≠ 0 then .error () else evalLoop rest p.2
      else
        if uint (topIndex val_stack.length) < uint 1 then .error ()
        else
          let qb := Stack_popVal val_stack
          let qa := Stack_popVal qb.2
          let result_value := RPNCalculator_applyOperation token qa.1 qb.1
          if result_value = -EINVALq then .error ()
          else
            let p := Stack_pushVal qa.2 result_value
            if p.1 ≠ 0 then .error () else evalLoop rest p.2
    else .error ()

/-- RPNCalculator_evaluatePostfix (renamed): run the token loop from an
empty value stack; afterwards exactly one value must remain
(`val_stack.top != 0u`, an int-vs-unsigned comparison that is also true
at `top = -1`), which is popped and returned. -/
def RPNCalculator_evaluateRPN (output : List String) : Except Unit ℚ :=
  match evalLoop output [] with
  | .error () => .error ()
  | .ok val_stack =>
    if uint (topIndex val_stack.length) ≠ uint 0 then .error ()
    else .ok (Stack_popVal val_stack).1

theorem Stack_pushVal_nil (v : ℚ) : Stack_pushVal [] v = (-EINVAL, []) := by
  have h : uint (topIndex (List.length ([] : List ℚ))) ≥
      uint ((MAX_STACK_SIZE : Int) - 1) := by decide
  unfold Stack_pushVal
  rw [if_pos h]

theorem Stack_pushOp_nil (v : String) : Stack_pushOp [] v = (-EINVAL, []) := by
  have h : uint (topIndex (List.length ([] : List String))) ≥
      uint ((MAX_STACK_SIZE : Int) - 1) := by decide
  unfold Stack_pushOp
  rw [if_pos h]

/-- Every push onto the empty value stack is refused, so the evaluator's
token loop fails on the first token it sees, whatever that token is:
a number push is refused; `!` hits the explicit empty check; a binary
operator's operand guard does not fire (`uint (-1)` is huge) but the pop
sentinels either collide with -EINVAL or the result push is refused. -/
theorem evalLoop_cons_nil (t : String) (rest : List String) :
    evalLoop (t :: rest) [] = .error () := by
  simp only [evalLoop]
  by_cases hnum : isNumberTok t
  · rw [if_pos hnum]
    simp [Stack_pushVal_nil, EINVAL]
  · rw [if_neg hnum, if_pos (uint_zero_le _)]
    by_cases hf : t = "!"
    · rw [if_pos hf]
      have he : Stack_isEmptyVal [] = STACK_EMPTY := by decide
      rw [if_pos he]
    · rw [if_neg hf]
      have htop : ¬ uint (topIndex (List.length ([] : List ℚ))) < uint 1 := by decide
      rw [if_neg htop]
      simp only [Stack_popVal]
      by_cases hr : RPNCalculator_applyOperation t (-EINVALq) (-EINVALq) = -EINVALq
      · rw [if_pos hr]
      · rw [if_neg hr]
        simp [Stack_pushVal_nil, EINVAL]

/-- The value stack can never grow (every push fails), so the evaluator
returns an error on every input: nonempty inputs fail at their first
token, and the empty input fails the final exactly-one-value check
because `top = -1` is not 0. -/
theorem evalRPN_error (toks : List String) : RPNCalculator_evaluateRPN toks = .error () := by
  cases toks with
  | nil => rfl
  | cons t rest =>
    unfold RPNCalculator_evaluateRPN
    rw [evalLoop_cons_nil]

/-- With an empty operator stack the converter keeps an empty operator
stack forever — the always-true function guard routes every non-number
token to `Stack_pushOp`, which refuses to push onto an empty stack — so
the conversion succeeds and the output is exactly the number tokens of
the input, in order. -/
theorem shuntingYardGo_nil_stack (toks : List String) : ∀ out : List String,
    shuntingYardGo toks [] out = .ok (out ++ toks.filter (fun t => isNumberTok t)) := by
  induction toks with
  | nil =>
    intro out
    simp [shuntingYardGo, drainOps]
  | cons t rest ih =>
    intro out
    simp only [shuntingYardGo]
    by_cases hnum : isNumberTok t
    · rw [if_pos hnum, ih]
      simp [List.filter_cons_of_pos, hnum]
    · rw [if_neg hnum, if_pos (uint_zero_le _), Stack_pushOp_nil, ih]
      simp [List.filter_cons_of_neg, hnum]

theorem applyOperation_div_zero (a : ℚ) :
    RPNCalculator_applyOperation "/" a 0 = -EINVALq := by
  have h : RPNCalculator_whichOperator "/" = 3 := by decide
  simp [RPNCalculator_applyOperation, h, OP_ADD, OP_SUB, OP_MUL, OP_DIV, OP_POW]

/-- Meeting "/" with divisor 0 on top of the value stack always errors:
with exactly one value the operand guard fires, with two or more the
applier's fall-through produces the -EINVAL sentinel which the evaluator
treats as failure. -/
theorem evalLoop_div_zero (st : List ℚ) (post : List String) :
    evalLoop ("/" :: post) ((0 : ℚ) :: st) = .error () := by
  simp only [evalLoop]
  rw [if_neg (by decide : ¬ (isNumberTok "/" = true)), if_pos (uint_zero_le _),
      if_neg (by decide : ¬ ("/" : String) = "!")]
  by_cases htop : uint (topIndex (List.length ((0 : ℚ) :: st))) < uint 1
  · rw [if_pos htop]
  · rw [if_neg htop]
    simp only [Stack_popVal]
    rw [applyOperation_div_zero, if_pos rfl]

theorem digitDot_not_other (c : Char) (h : isdigitC c = true ∨ c = '.') :
    isspaceC c = false ∧ isalphaC c = false ∧ opBracketChar c = false := by
  rcases h with h | h
  · have h48 : 48 ≤ c.toNat ∧ c.toNat ≤ 57 := by
      simpa [isdigitC] using h
    refine ⟨?_, ?_, ?_⟩ <;>
      simp only [isspaceC, isalphaC, opBracketChar, decide_eq_false_iff_not] <;>
      omega
  · subst h
    decide

theorem isNumberTok_not_bracket (t : String) (h : isNumberTok t = true) :
    isOpenBracket t = false ∧ isCloseBracket t = false := by
  constructor
  · cases ho : isOpenBracket t
    · rfl
    · exfalso
      have h3 : (t = "(" ∨ t = "[") ∨ t = "\x7b" := by
        simpa [isOpenBracket, beq_iff_eq, Bool.or_eq_true] using ho
      rcases h3 with (rfl | rfl) | rfl <;> exact absurd h (by decide)
  · cases hc : isCloseBracket t
    · rfl
    · exfalso
      have h3 : (t = ")" ∨ t = "]") ∨ t = "\x7d" := by
        simpa [isCloseBracket, beq_iff_eq, Bool.or_eq_true] using hc
      rcases h3 with (rfl | rfl) | rfl <;> exact absurd h (by decide)

/-- C1: for every postfix token sequence and every point in its
left-to-right processing, if the evaluator encounters a binary operator
token (+, -, *, /, ^) while the value stack holds fewer than two values
(the completely empty stack included), the evaluation fails with an
error; in particular the postfix sequence ["3", "+"] evaluates to an
error. -/
theorem claim_C1 :
    (∀ (pre post : List String) (op : String) (st : List ℚ),
        op ∈ (["+", "-", "*", "/", "^"] : List String) →
        evalLoop pre [] = .ok st → st.length < 2 →
        RPNCalculator_evaluateRPN (pre ++ op :: post) = .error ()) ∧
    RPNCalculator_evaluateRPN ["3", "+"] = .error () :=
  ⟨fun pre post op _st _ _ _ => evalRPN_error (pre ++ op :: post),
   evalRPN_error ["3", "+"]⟩

/-- Witness for C1 at the concrete point pre = [], op = "+", post = [],
with the empty (reachable) value stack. -/
theorem claim_C1_witness :
    ("+" ∈ (["+", "-", "*", "/", "^"] : List String)) ∧
      evalLoop [] [] = .ok ([] : List ℚ) ∧ ([] : List ℚ).length < 2 ∧
      RPNCalculator_evaluateRPN ([] ++ "+" :: []) = .error () :=
  ⟨by decide, rfl, by decide, claim_C1.1 [] [] "+" [] (by decide) rfl (by decide)⟩

/-- C2 counterexample: tokenizing 64 consecutive digits does not
"continue successfully" past the capacity boundary — after the number
token fills to 63 characters the leftover digit is reported as an
unrecognized character and tokenize fails. -/
theorem claim_C2_counterexample :
    RPNCalculator_tokenize
        "1111111111111111111111111111111111111111111111111111111111111111" =
      .error () := rfl

/-- C2 (amended): when a NUMBER token reaches the 64-character token
capacity (63 content characters, `char_index = MAX_TOKEN_LENGTH - 1`)
while a further digit or '.' character remains, the token is truncated
at the capacity boundary but tokenize then fails with an error on the
excess character instead of continuing: the tokenizer loop errors
whenever it resumes at `char_index ≥ 63` on a digit or '.', a 63-digit
input still tokenizes to a single full token, and a 64-digit input
fails. -/
theorem claim_C2 :
    (∀ (fuel : Nat) (c : Char) (cs : List Char) (ci total : Nat) (acc : List String),
        (isdigitC c = true ∨ c = '.') → MAX_TOKEN_LENGTH - 1 ≤ ci →
        tokenizeGo (fuel + 1) (c :: cs) ci total acc = .error ()) ∧
    RPNCalculator_tokenize
        "111111111111111111111111111111111111111111111111111111111111111" =
      .ok ["111111111111111111111111111111111111111111111111111111111111111"] ∧
    RPNCalculator_tokenize
        "1111111111111111111111111111111111111111111111111111111111111111" =
      .error () := by
  refine ⟨?_, rfl, rfl⟩
  intro fuel c cs ci total acc hc hci
  obtain ⟨hsp, hal, hop⟩ := digitDot_not_other c hc
  simp only [tokenizeGo]
  rw [if_neg (by simp [hsp]), if_neg (fun h => (Nat.not_lt.mpr hci) h.2),
      if_neg (by simp [hal]), if_neg (by simp [hop])]

/-- Witness for C2's general component at c = '1', char_index = 63. -/
theorem claim_C2_witness :
    (isdigitC '1' = true ∨ '1' = '.') ∧ MAX_TOKEN_LENGTH - 1 ≤ 63 ∧
      tokenizeGo 1 ['1'] 63 0 [] = .error () :=
  ⟨Or.inl (by decide), by decide,
   claim_C2.1 0 '1' [] 63 0 [] (Or.inl (by decide)) (by decide)⟩

/-- C3: evaluating the binary subtraction 5 - 27 (postfix
["5", "27", "-"]).  The claim says the result -22 is pushed and
evaluation continues without error; the code instead reports an error —
the applier's correct result -22 coincides with the -(EINVAL) in-band
sentinel (and the preceding number pushes onto the empty value stack
already fail because of the unsigned capacity guard). -/
theorem claim_C3 :
    RPNCalculator_applyOperation "-" 5 27 = -EINVALq ∧
      evalLoop ["-"] [(27 : ℚ), 5] = .error () ∧
      RPNCalculator_evaluateRPN ["5", "27", "-"] = .error () := by
  refine ⟨?_, ?_, rfl⟩
  · norm_num +decide [RPNCalculator_applyOperation, RPNCalculator_whichOperator,
      lookupIndexFrom, operators_str, OP_ADD, OP_SUB, OP_MUL, OP_DIV, OP_POW,
      EINVALq, EINVAL]
  · norm_num +decide [evalLoop, isNumberTok, Stack_popVal, Stack_pushVal, topIndex, uint,
      RPNCalculator_applyOperation, RPNCalculator_whichOperator, lookupIndexFrom,
      operators_str, OP_ADD, OP_SUB, OP_MUL, OP_DIV, OP_POW, EINVALq, EINVAL,
      Stack_isEmptyVal, STACK_EMPTY, isdigitC]

/-- C4: every recognized function name receives from checkPrecedence the
same precedence level as the operator "!" — both are 0, because the
int-vs-unsigned guards keep every assignment branch from firing. -/
theorem claim_C4 (f : String) (_hf : f ∈ functions_str) :
    RPNCalculator_checkPrecedence f = RPNCalculator_checkPrecedence "!" := by
  rw [checkPrecedence_eq_zero, checkPrecedence_eq_zero]

/-- Witness for C4 at f = "sqrt". -/
theorem claim_C4_witness :
    ("sqrt" ∈ functions_str) ∧
      RPNCalculator_checkPrecedence "sqrt" = RPNCalculator_checkPrecedence "!" :=
  ⟨by decide, claim_C4 "sqrt" (by decide)⟩

/-- C5: the six operators do not sit in four strict precedence tiers —
checkPrecedence collapses all of them (and everything else) to
PRECEDENCE_1 = 0, so "!" is not strictly above "^" and so on; the
associativity half of the claim does hold (right-associative exactly for
"^" and "!"). -/
theorem claim_C5 :
    RPNCalculator_checkPrecedence "!" = RPNCalculator_checkPrecedence "^" ∧
    RPNCalculator_checkPrecedence "^" = RPNCalculator_checkPrecedence "*" ∧
    RPNCalculator_checkPrecedence "*" = RPNCalculator_checkPrecedence "/" ∧
    RPNCalculator_checkPrecedence "/" = RPNCalculator_checkPrecedence "+" ∧
    RPNCalculator_checkPrecedence "+" = RPNCalculator_checkPrecedence "-" ∧
    RPNCalculator_checkPrecedence "!" = PRECEDENCE_1 ∧
    RPNCalculator_isRightAssociative "^" = RIGHT_ASSOCIATIVE ∧
    RPNCalculator_isRightAssociative "!" = RIGHT_ASSOCIATIVE ∧
    RPNCalculator_isRightAssociative "+" = LEFT_ASSOCIATIVE ∧
    RPNCalculator_isRightAssociative "-" = LEFT_ASSOCIATIVE ∧
    RPNCalculator_isRightAssociative "*" = LEFT_ASSOCIATIVE ∧
    RPNCalculator_isRightAssociative "/" = LEFT_ASSOCIATIVE := by
  refine ⟨?_, ?_, ?_, ?_, ?_, ?_, rfl, rfl, rfl, rfl, rfl, rfl⟩ <;>
    simp [checkPrecedence_eq_zero, PRECEDENCE_1]

/-- C6: the pipeline on "2^3^2".  Tokenization gives the five infix
tokens, but the conversion drops both "^" tokens (each push onto the
empty operator stack is refused and its status ignored), producing
["2", "3", "2"] instead of the claimed ["2", "3", "2", "^", "^"]; and
evaluating the claimed postfix sequence errors at the first number push
instead of returning 512. -/
theorem claim_C6 :
    RPNCalculator_tokenize "2^3^2" = .ok ["2", "^", "3", "^", "2"] ∧
      RPNCalculator_shuntingYard ["2", "^", "3", "^", "2"] = .ok ["2", "3", "2"] ∧
      RPNCalculator_evaluateRPN ["2", "3", "2", "^", "^"] = .error () :=
  ⟨rfl, rfl, rfl⟩

/-- C7: whenever "/" is applied with divisor operand 0 on top of the
value stack the evaluation errors (never an infinity), and the full
pipeline on "5/0" ends in an error. -/
theorem claim_C7 :
    (∀ (st : List ℚ) (post : List String),
        evalLoop ("/" :: post) ((0 : ℚ) :: st) = .error ()) ∧
    RPNCalculator_tokenize "5/0" = .ok ["5", "/", "0"] ∧
    RPNCalculator_shuntingYard ["5", "/", "0"] = .ok ["5", "0"] ∧
    RPNCalculator_evaluateRPN ["5", "0"] = .error () :=
  ⟨fun st post => evalLoop_div_zero st post, rfl, rfl, rfl⟩

/-- C8: processing "!" with the single value 5 on the stack.  The
factorial function itself satisfies the claimed recurrence
(factorial 5 = 120), but instead of pushing 120 and continuing, the
evaluator errors: after popping the operand the stack is empty and the
push of the factorial is refused by the unsigned capacity guard. -/
theorem claim_C8 :
    RPNCalculator_factorialCalculate 5 = 120 ∧
      evalLoop ["!"] [(5 : ℚ)] = .error () ∧
      RPNCalculator_evaluateRPN ["5", "!"] = .error () := by
  refine ⟨by norm_num [RPNCalculator_factorialCalculate], ?_, rfl⟩
  norm_num +decide [evalLoop, isNumberTok, Stack_popVal, Stack_pushVal, topIndex, uint,
    Stack_isEmptyVal, STACK_EMPTY, STACK_FULL, isdigitC, truncInt,
    RPNCalculator_whichOperator, lookupIndexFrom, operators_str,
    RPNCalculator_factorialCalculate, MAX_STACK_SIZE]

/-- C9: the converter's very first internal push already fails — on the
1-token input ["+"] (well within the 1000-token bound) Stack_pushOp is
called on the empty operator stack, reports -EINVAL because
`top = -1` compared as unsigned exceeds the capacity bound, and the
ignored failure silently drops the operator from the output. -/
theorem claim_C9 :
    Stack_pushOp [] "+" = (-EINVAL, []) ∧
      RPNCalculator_shuntingYard ["+"] = .ok [] :=
  ⟨Stack_pushOp_nil "+", rfl⟩

/-- C10: whenever the conversion succeeds, the postfix output is a
sublist of the input (each output token is a distinct consumed input
token), its length is at most the input length, and no bracket token is
ever emitted. -/
theorem claim_C10 (tokens out : List String)
    (h : RPNCalculator_shuntingYard tokens = .ok out) :
    out.length ≤ tokens.length ∧ List.Sublist out tokens ∧
      ∀ t ∈ out, isOpenBracket t = false ∧ isCloseBracket t = false := by
  have heq : out = tokens.filter (fun t => isNumberTok t) := by
    have hgo := shuntingYardGo_nil_stack tokens []
    rw [RPNCalculator_shuntingYard, hgo] at h
    simpa using h.symm
  subst heq
  have hsub : List.Sublist (tokens.filter (fun t => isNumberTok t)) tokens :=
    List.filter_sublist tokens
  refine ⟨hsub.length_le, hsub, ?_⟩
  intro t ht
  exact isNumberTok_not_bracket t (List.of_mem_filter ht)

/-- Witness for C10 at the input ["3", ")"], converted to ["3"]. -/
theorem claim_C10_witness :
    RPNCalculator_shuntingYard ["3", ")"] = .ok ["3"] ∧
      (["3"] : List String).length ≤ (["3", ")"] : List String).length :=
  ⟨rfl, (claim_C10 ["3", ")"] ["3"] rfl).1⟩
